import Mathlib

/-!
Verification of the supplier-compliance backend's decision logic:
the metric classifier (`backend/app/routers/compliance.py`), the adverse
weather detector and justification generator
(`backend/app/weather_service.py`), and the weather adjudication step over
compliance records (`backend/app/routers/suppliers.py`).

Python dictionaries with optional keys are embedded as structures with
`Option` fields or association lists; float values are embedded as `ℚ`;
a Python function that can raise on some input is embedded as a function
into `Option`/`Except`, `none`/`error` marking the raised exception.
-/

namespace SupplierCompliance

/-- Substring test embedding Python's `keyword in text`: `needle` occurs
contiguously in `hay`. `listHasPre needle hay` says `needle` is a leading
segment of `hay`. -/
def listHasPre : List Char → List Char → Bool
  | [], _ => true
  | _ :: _, [] => false
  | c :: cs, d :: ds => c == d && listHasPre cs ds

/-- `needle` occurs as a contiguous segment of `hay`. -/
def listHasSub (needle : List Char) : List Char → Bool
  | [] => listHasPre needle []
  | d :: ds => listHasPre needle (d :: ds) || listHasSub needle ds

/-- `strContains hay needle` embeds Python's `needle in hay`. -/
def strContains (hay needle : String) : Bool :=
  listHasSub needle.toList hay.toList

/-- Embeds Python's `str.lower()` (character-wise, kernel-evaluable). -/
def strLower (s : String) : String :=
  String.mk (s.toList.map Char.toLower)

/-- Metric classifier from `check_compliance`
(`backend/app/routers/compliance.py`, lines 47-58): with an expected
value present, delivery_time/lead_time compare `result <= expected`,
quality_score/quality_rating compare `result >= expected`; any other
metric, or an absent expected value, keeps the caller-supplied status. -/
def classifyStatus (metric : String) (result : ℚ) (expected : Option ℚ)
    (fallback : String) : String :=
  match expected with
  | none => fallback
  | some e =>
    if strLower metric = "delivery_time" ∨ strLower metric = "lead_time" then
      if result ≤ e then "compliant" else "non-compliant"
    else if strLower metric = "quality_score" ∨ strLower metric = "quality_rating" then
      if result ≥ e then "compliant" else "non-compliant"
    else fallback

/-! ## Adverse weather detector (`backend/app/weather_service.py`) -/

/-- Rendering of a rational in a formatted message, embedding Python's
f-string interpolation of the numeric amount. -/
def ratStr (q : ℚ) : String :=
  if q.den = 1 then toString q.num
  else toString q.num ++ "/" ++ toString q.den

/-- One entry of the `weather` list of an observation; both keys are
optional in the raw dictionary (`.get('main', '')` / `.get('description', '')`). -/
structure WeatherEntry where
  main : Option String
  description : Option String
deriving DecidableEq, Repr

/-- One observation, i.e. one element of `weather_data['data']`. The
`rain`/`snow` fields embed Python dictionaries: `none` stands for an
absent key or a `None` value (both falsy), `some m` for a dictionary with
entry list `m` (falsy exactly when `m = []`). -/
structure WeatherInfo where
  weather : Option (List WeatherEntry)
  rain : Option (List (String × ℚ)) := none
  snow : Option (List (String × ℚ)) := none
  wind_speed : Option ℚ := none
  temp : Option ℚ := none
deriving DecidableEq, Repr

/-- The argument of `analyze_adverse_weather`. `data = none` embeds a falsy
input (`None`/`{}`) as well as a dictionary without the `'data'` key: both
take the same early-return branch. `mock` embeds `.get('mock', False)`. -/
structure WeatherData where
  data : Option (List WeatherInfo)
  mock : Bool := false
deriving DecidableEq, Repr

/-- An adverse-condition finding appended to `adverse_conditions_found`;
`main` and `measurement` are `none` when the corresponding dictionary key
is absent (keyword findings carry `main`, threshold findings `measurement`). -/
structure Finding where
  type : String
  description : String
  main : Option String := none
  measurement : Option ℚ := none
deriving DecidableEq, Repr

/-- The dictionary returned by `analyze_adverse_weather`; the last four
fields are absent (`none`) on the early no-data return. -/
structure WeatherAnalysis where
  has_adverse_weather : Bool
  conditions : List Finding
  severity : String
  justification : String
  weather_description : Option String := none
  temperature : Option ℚ := none
  wind_speed : Option ℚ := none
  mock_data : Option Bool := none
deriving DecidableEq, Repr

/-- The `adverse_conditions` keyword table of `WeatherService.__init__`,
in the source's insertion order. -/
def adverseConditions : List (String × List String) :=
  [("thunderstorm", ["thunderstorm", "storm"]),
   ("heavy_rain", ["heavy rain", "extreme rain", "heavy intensity rain"]),
   ("snow", ["snow", "blizzard", "heavy snow"]),
   ("fog", ["fog", "mist"]),
   ("extreme_weather", ["tornado", "hurricane", "typhoon"])]

/-- The `severity_keywords` list used to pick severity `"high"`. -/
def severityKeywords : List String :=
  ["extreme", "heavy", "severe", "thunderstorm", "snow", "blizzard"]

/-- Embeds Python's `d.get(key, 0)` on an association-list dictionary. -/
def getD0 (m : List (String × ℚ)) (key : String) : ℚ :=
  (m.lookup key).getD 0

/-- Embeds `d.get('1h', 0) or d.get('3h', 0)`: the 1h amount unless it is
falsy (zero), else the 3h amount. -/
def precipAmount (m : List (String × ℚ)) : ℚ :=
  if getD0 m "1h" ≠ 0 then getD0 m "1h" else getD0 m "3h"

/-- Embeds Python's `str.title()` over the lowercase-and-spaces strings the
generator builds: a cased character is uppercased when the previous
character is not alphabetic, lowercased otherwise. -/
def titleCaseAux : Bool → List Char → List Char
  | _, [] => []
  | prevAlpha, c :: cs =>
    (if c.isAlpha then (if prevAlpha then c.toLower else c.toUpper) else c)
      :: titleCaseAux c.isAlpha cs

/-- `s.replace('_', ' ').title()` from `_generate_justification`. -/
def underscoreTitle (s : String) : String :=
  String.mk (titleCaseAux false (s.toList.map fun c => if c = '_' then ' ' else c))

/-- The description chosen for one finding by `_generate_justification`:
its literal description when it carries a measurement, else its category
name with underscores replaced by spaces and title-cased. -/
def conditionDescription (c : Finding) : String :=
  match c.measurement with
  | some _ => c.description
  | none => underscoreTitle c.type

/-- `WeatherService._generate_justification`
(`backend/app/weather_service.py`, lines 202-218). -/
def generateJustification (adverse_conditions : List Finding)
    (weather_desc : String) : String :=
  if adverse_conditions = [] then
    "No adverse weather conditions detected that would impact delivery."
  else
    let condition_descriptions := adverse_conditions.map conditionDescription
    if condition_descriptions.length = 1 then
      "Delivery delay justified due to adverse weather: " ++
        condition_descriptions.headD "" ++ ". Weather conditions: " ++
        weather_desc ++ "."
    else
      let conditions_str := String.intercalate ", " condition_descriptions.dropLast
        ++ " and " ++ condition_descriptions.getLastD ""
      "Delivery delay justified due to multiple adverse weather conditions: " ++
        conditions_str ++ ". Weather conditions: " ++ weather_desc ++ "."

/-- Keyword findings: for each condition category, one finding per keyword
occurring in the lower-cased description or main category. -/
def keywordFindings (weather_desc weather_main : String) : List Finding :=
  adverseConditions.flatMap fun ck =>
    (ck.2.filter fun keyword =>
      strContains weather_desc keyword || strContains weather_main keyword).map
      fun _ => { type := ck.1, description := weather_desc, main := some weather_main }

/-- Rain-threshold block of `analyze_adverse_weather` (lines 149-156): a
truthy `rain` dictionary whose chosen amount exceeds 10 mm appends one
`heavy_rain` finding carrying the measurement. -/
def rainFindings (rain : Option (List (String × ℚ))) : List Finding :=
  match rain with
  | none => []
  | some m =>
    if m ≠ [] ∧ precipAmount m > 10 then
      [{ type := "heavy_rain",
         description := "Heavy rainfall: " ++ ratStr (precipAmount m) ++ "mm",
         measurement := some (precipAmount m) }]
    else []

/-- Snow-threshold block of `analyze_adverse_weather` (lines 158-165): a
truthy `snow` dictionary with any positive chosen amount appends one
`snow` finding carrying the measurement. -/
def snowFindings (snow : Option (List (String × ℚ))) : List Finding :=
  match snow with
  | none => []
  | some m =>
    if m ≠ [] ∧ precipAmount m > 0 then
      [{ type := "snow",
         description := "Snowfall: " ++ ratStr (precipAmount m) ++ "mm",
         measurement := some (precipAmount m) }]
    else []

/-- Wind-threshold block of `analyze_adverse_weather` (lines 167-174). -/
def windFindings (wind_speed : ℚ) : List Finding :=
  if wind_speed > 15 then
    [{ type := "strong_wind",
       description := "Strong winds: " ++ ratStr wind_speed ++ " m/s",
       measurement := some wind_speed }]
  else []

/-- Severity selection of `analyze_adverse_weather` (lines 176-184). -/
def severityOf (found : List Finding) (weather_desc : String) : String :=
  if found.length > 0 then
    if severityKeywords.any (fun keyword => strContains weather_desc keyword) then
      "high"
    else if found.length > 1 then "medium"
    else "low"
  else "none"

/-- Main path of `analyze_adverse_weather` on the first observation of the
`data` list; `none` embeds the exception raised by indexing `[0]` on a
present-but-empty `weather` list (the `[{}]` default applies only when the
key is absent). -/
def analyzeObservation (mock : Bool) (weather_info : WeatherInfo) :
    Option WeatherAnalysis :=
  match (weather_info.weather.getD [{ main := none, description := none }]).head? with
  | none => none
  | some entry =>
    let weather_desc := strLower (entry.description.getD "")
    let weather_main := strLower (entry.main.getD "")
    let found := keywordFindings weather_desc weather_main ++
      rainFindings weather_info.rain ++ snowFindings weather_info.snow ++
      windFindings (weather_info.wind_speed.getD 0)
    some
      { has_adverse_weather := found.length > 0
        conditions := found
        severity := severityOf found weather_desc
        justification := generateJustification found weather_desc
        weather_description := some weather_desc
        temperature := weather_info.temp
        wind_speed := some (weather_info.wind_speed.getD 0)
        mock_data := some mock }

/-- `WeatherService.analyze_adverse_weather`
(`backend/app/weather_service.py`, lines 109-200). `none` embeds a raised
exception: indexing `['data'][0]` on an empty observation list, or the
`weather`-list indexing inside `analyzeObservation`. -/
def analyze_adverse_weather (weather_data : WeatherData) : Option WeatherAnalysis :=
  match weather_data.data with
  | none => some
      { has_adverse_weather := false
        conditions := []
        severity := "none"
        justification := "No weather data available" }
  | some [] => none
  | some (weather_info :: _) => analyzeObservation weather_data.mock weather_info

/-! ## Compliance records and the two router operations
(`backend/app/routers/compliance.py`, `backend/app/routers/suppliers.py`) -/

/-- A persisted compliance record (`ComplianceRecord` in
`backend/app/models.py`); dates are opaque codes. -/
structure Record where
  id : ℕ
  supplier_id : ℕ
  metric : String
  date_recorded : ℕ
  result : ℚ
  expected_value : Option ℚ
  status : String
  weather_data : Option WeatherAnalysis := none
  weather_justification : Option String := none
deriving DecidableEq, Repr

/-- Caller-supplied payload of one compliance entry
(`ComplianceRecordBase` in `backend/app/schemas.py`). -/
structure ComplianceEntry where
  metric : String
  date_recorded : ℕ
  result : ℚ
  expected_value : Option ℚ
  status : String
deriving DecidableEq, Repr

/-- Record staged by the ingestion loop of `check_compliance`
(`backend/app/routers/compliance.py`, lines 45-68): the status is the
classifier verdict, every other field is copied from the entry. -/
def ingestRecord (supplier_id newId : ℕ) (rd : ComplianceEntry) : Record :=
  { id := newId
    supplier_id := supplier_id
    metric := rd.metric
    date_recorded := rd.date_recorded
    result := rd.result
    expected_value := rd.expected_value
    status := classifyStatus rd.metric rd.result rd.expected_value rd.status }

/-- Record built by `create_compliance_record`
(`backend/app/routers/compliance.py`, lines 167-195): the `supplier_id`
of the payload is overridden by the URL parameter and every field,
including the status, is stored verbatim. -/
def createComplianceRecord (url_supplier_id newId : ℕ) (rc : ComplianceEntry) :
    Record :=
  { id := newId
    supplier_id := url_supplier_id
    metric := rc.metric
    date_recorded := rc.date_recorded
    result := rc.result
    expected_value := rc.expected_value
    status := rc.status }

/-- Supplier-score update of `check_compliance`
(`backend/app/routers/compliance.py`, lines 107-109): the advisory
opinion's `compliance_score_suggestion` (defaulting to the current score
when the key is absent) forced into `[0, 100]` by `max(0, min(100, _))`. -/
def newComplianceScore (ai_analysis : List (String × ℤ)) (current_score : ℤ) : ℤ :=
  let suggested_score := (ai_analysis.lookup "compliance_score_suggestion").getD
    current_score
  max 0 (min 100 suggested_score)

/-- Reclassification applied to one selected record by
`check_weather_impact`: status becomes `"excused-weather"` and the weather
analysis and its justification are attached. -/
def excuse (wa : WeatherAnalysis) (r : Record) : Record :=
  { r with
    status := "excused-weather"
    weather_data := some wa
    weather_justification := some wa.justification }

/-- Mutation of the single record matched by
`compliance_record_id` + `supplier_id` (the query's `.first()`): the first
matching record is reclassified when it is `"non-compliant"`, everything
else is untouched. Returns the new list and the `updated_records` list. -/
def updateById (rid sid : ℕ) (wa : WeatherAnalysis) :
    List Record → List Record × List Record
  | [] => ([], [])
  | r :: rs =>
    if r.id = rid ∧ r.supplier_id = sid then
      if r.status = "non-compliant" then (excuse wa r :: rs, [excuse wa r])
      else (r :: rs, [])
    else
      let p := updateById rid sid wa rs
      (r :: p.1, p.2)

/-- Selection filter of the date-based branch of `check_weather_impact`:
same supplier, same recorded date, verdict `"non-compliant"`. -/
def selectsForDate (sid delivery_date : ℕ) (r : Record) : Bool :=
  r.supplier_id = sid ∧ r.date_recorded = delivery_date ∧ r.status = "non-compliant"

/-- The per-record effect of the date-based loop of `check_weather_impact`:
a selected record is reclassified, any other is left alone. -/
def excuseForDate (sid delivery_date : ℕ) (wa : WeatherAnalysis) (r : Record) :
    Record :=
  if selectsForDate sid delivery_date r then excuse wa r else r

/-- Record-mutation step of `check_weather_impact`
(`backend/app/routers/suppliers.py`, lines 186-227), after the weather
analysis has been computed. With an explicit record id the record must
exist for the supplier (else a 404 error, embedded as `Except.error`) and
is reclassified only when adverse weather holds and it is
`"non-compliant"`; without one, every `"non-compliant"` record of the
supplier dated `delivery_date` is reclassified when adverse weather holds.
Returns the resulting record list and `updated_records`. -/
def applyWeatherImpact (sid : ℕ) (compliance_record_id : Option ℕ)
    (delivery_date : ℕ) (wa : WeatherAnalysis) (db : List Record) :
    Except String (List Record × List Record) :=
  match compliance_record_id with
  | some rid =>
    if db.any fun r => r.id = rid ∧ r.supplier_id = sid then
      if wa.has_adverse_weather then Except.ok (updateById rid sid wa db)
      else Except.ok (db, [])
    else
      Except.error ("Compliance record with ID " ++ toString rid ++
        " not found for supplier " ++ toString sid)
  | none =>
    if wa.has_adverse_weather then
      Except.ok
        (db.map (excuseForDate sid delivery_date wa),
         (db.filter (selectsForDate sid delivery_date)).map (excuse wa))
    else Except.ok (db, [])

/-! ## Helper lemmas about the weather adjudication step -/

lemma excuse_status (wa : WeatherAnalysis) (r : Record) :
    (excuse wa r).status = "excused-weather" := rfl

lemma excuse_id (wa : WeatherAnalysis) (r : Record) :
    (excuse wa r).id = r.id := rfl

lemma excuse_supplier (wa : WeatherAnalysis) (r : Record) :
    (excuse wa r).supplier_id = r.supplier_id := rfl

lemma updateById_snd_status (rid sid : ℕ) (wa : WeatherAnalysis) :
    ∀ db : List Record, ∀ r ∈ (updateById rid sid wa db).2,
      r.status = "excused-weather" := by
  intro db
  induction db with
  | nil => intro r hr; simp [updateById] at hr
  | cons a db ih =>
    intro r hr
    by_cases hp : a.id = rid ∧ a.supplier_id = sid
    · by_cases hs : a.status = "non-compliant"
      · simp only [updateById, if_pos hp, if_pos hs, List.mem_singleton] at hr
        rw [hr]
        rfl
      · simp [updateById, if_pos hp, if_neg hs] at hr
    · simp only [updateById, if_neg hp] at hr
      exact ih r hr

lemma updateById_forall₂ (rid sid : ℕ) (wa : WeatherAnalysis) (db : List Record) :
    List.Forall₂ (fun r r' => r' = r ∨ (r.id = rid ∧ r.supplier_id = sid ∧
      r.status = "non-compliant" ∧ r' = excuse wa r)) db
      (updateById rid sid wa db).1 := by
  induction db with
  | nil => exact List.Forall₂.nil
  | cons a db ih =>
    by_cases hp : a.id = rid ∧ a.supplier_id = sid
    · by_cases hs : a.status = "non-compliant"
      · simp only [updateById, if_pos hp, if_pos hs]
        exact List.Forall₂.cons (Or.inr ⟨hp.1, hp.2, hs, rfl⟩)
          (List.forall₂_same.mpr fun x _ => Or.inl rfl)
      · simp only [updateById, if_pos hp, if_neg hs]
        exact List.Forall₂.cons (Or.inl rfl)
          (List.forall₂_same.mpr fun x _ => Or.inl rfl)
    · simp only [updateById, if_neg hp]
      exact List.Forall₂.cons (Or.inl rfl) ih

lemma updateById_any (rid sid : ℕ) (wa : WeatherAnalysis) (db : List Record) :
    ((updateById rid sid wa db).1.any fun r => r.id = rid ∧ r.supplier_id = sid) =
      (db.any fun r => r.id = rid ∧ r.supplier_id = sid) := by
  induction db with
  | nil => rfl
  | cons a db ih =>
    by_cases hp : a.id = rid ∧ a.supplier_id = sid
    · by_cases hs : a.status = "non-compliant" <;>
        simp [updateById, if_pos hp, hs, excuse_id, excuse_supplier, hp]
    · simp only [updateById, if_neg hp, List.any_cons]
      rw [ih]

lemma updateById_idem (rid sid : ℕ) (wa : WeatherAnalysis) (db : List Record) :
    updateById rid sid wa (updateById rid sid wa db).1 =
      ((updateById rid sid wa db).1, []) := by
  induction db with
  | nil => rfl
  | cons a db ih =>
    by_cases hp : a.id = rid ∧ a.supplier_id = sid
    · by_cases hs : a.status = "non-compliant"
      · have hp' : (excuse wa a).id = rid ∧ (excuse wa a).supplier_id = sid := hp
        have hs' : ¬ (excuse wa a).status = "non-compliant" := by
          rw [excuse_status]
          decide
        simp [updateById, if_pos hp, if_pos hs, if_pos hp', if_neg hs']
      · simp [updateById, if_pos hp, if_neg hs]
    · simp only [updateById, if_neg hp]
      rw [ih]

lemma updateById_noop (rid sid : ℕ) (wa : WeatherAnalysis) (db : List Record)
    (r₀ : Record)
    (hf : (db.find? fun r => r.id = rid ∧ r.supplier_id = sid) = some r₀)
    (hs : r₀.status ≠ "non-compliant") :
    updateById rid sid wa db = (db, []) := by
  induction db with
  | nil => simp at hf
  | cons a db ih =>
    by_cases hp : a.id = rid ∧ a.supplier_id = sid
    · have : r₀ = a := by
        rw [List.find?_cons_of_pos _ (by simpa using hp)] at hf
        exact (Option.some.inj hf).symm
      subst this
      simp [updateById, if_pos hp, if_neg hs]
    · rw [List.find?_cons_of_neg _ (by simpa using hp)] at hf
      simp only [updateById, if_neg hp]
      rw [ih hf]

lemma selectsForDate_excuseForDate (sid d : ℕ) (wa : WeatherAnalysis) (r : Record) :
    selectsForDate sid d (excuseForDate sid d wa r) = false := by
  by_cases h : selectsForDate sid d r = true
  · simp only [excuseForDate, if_pos h]
    simp [selectsForDate, excuse]
  · simp only [excuseForDate, h, ite_false]
    simpa using h

lemma map_fix {α : Type} (f : α → α) (l : List α) (h : ∀ x ∈ l, f x = x) :
    l.map f = l := by
  induction l with
  | nil => rfl
  | cons a l ih =>
    rw [List.map_cons, h a (List.mem_cons_self a l), ih fun x hx =>
      h x (List.mem_cons_of_mem a hx)]

lemma excuseForDate_map_idem (sid d : ℕ) (wa : WeatherAnalysis) (db : List Record) :
    (db.map (excuseForDate sid d wa)).map (excuseForDate sid d wa) =
      db.map (excuseForDate sid d wa) := by
  refine map_fix _ _ fun x hx => ?_
  obtain ⟨r, _, rfl⟩ := List.mem_map.mp hx
  unfold excuseForDate
  rw [if_neg (by simpa using selectsForDate_excuseForDate sid d wa r)]

lemma excuseForDate_filter_nil (sid d : ℕ) (wa : WeatherAnalysis) (db : List Record) :
    (db.map (excuseForDate sid d wa)).filter (selectsForDate sid d) = [] := by
  refine List.filter_eq_nil_iff.mpr fun x hx => ?_
  obtain ⟨r, _, rfl⟩ := List.mem_map.mp hx
  simp [selectsForDate_excuseForDate]

lemma excuseForDate_forall₂ (sid d : ℕ) (wa : WeatherAnalysis) (db : List Record) :
    List.Forall₂ (fun r r' => r' = r ∨ (r.supplier_id = sid ∧
      r.status = "non-compliant" ∧ r' = excuse wa r)) db
      (db.map (excuseForDate sid d wa)) := by
  rw [List.forall₂_map_right_iff]
  refine List.forall₂_same.mpr fun r _ => ?_
  by_cases h : selectsForDate sid d r = true
  · have hsel := h
    simp only [selectsForDate, decide_eq_true_eq, Bool.decide_and,
      Bool.and_eq_true] at hsel
    exact Or.inr ⟨hsel.1, hsel.2.2, by simp [excuseForDate, h]⟩
  · exact Or.inl (by simp [excuseForDate, h])

/-- Every `applyWeatherImpact` success transforms the stored records
pointwise: each record is untouched or was a `non-compliant` record of the
requested supplier reclassified by `excuse`. -/
lemma applyWeatherImpact_forall₂ (sid : ℕ) (rid? : Option ℕ) (d : ℕ)
    (wa : WeatherAnalysis) (db db' upd : List Record)
    (h : applyWeatherImpact sid rid? d wa db = Except.ok (db', upd)) :
    List.Forall₂ (fun r r' => r' = r ∨ (r.supplier_id = sid ∧
      r.status = "non-compliant" ∧ r' = excuse wa r)) db db' := by
  cases rid? with
  | none =>
    simp only [applyWeatherImpact] at h
    by_cases hw : wa.has_adverse_weather = true
    · rw [if_pos hw] at h
      obtain ⟨h1, -⟩ := Prod.mk.injEq .. ▸ Except.ok.inj h
      rw [← h1]
      exact excuseForDate_forall₂ sid d wa db
    · rw [if_neg hw] at h
      obtain ⟨h1, -⟩ := Prod.mk.injEq .. ▸ Except.ok.inj h
      rw [← h1]
      exact List.forall₂_same.mpr fun x _ => Or.inl rfl
  | some rid =>
    simp only [applyWeatherImpact] at h
    by_cases hex : (db.any fun r => r.id = rid ∧ r.supplier_id = sid) = true
    · rw [if_pos hex] at h
      by_cases hw : wa.has_adverse_weather = true
      · rw [if_pos hw] at h
        obtain ⟨h1, -⟩ := Prod.mk.injEq .. ▸ Except.ok.inj h
        rw [← h1]
        exact (updateById_forall₂ rid sid wa db).imp fun r r' hr =>
          hr.imp id fun ⟨_, h2, h3, h4⟩ => ⟨h2, h3, h4⟩
      · rw [if_neg hw] at h
        obtain ⟨h1, -⟩ := Prod.mk.injEq .. ▸ Except.ok.inj h
        rw [← h1]
        exact List.forall₂_same.mpr fun x _ => Or.inl rfl
    · rw [if_neg hex] at h
      simp at h

/-! ## Theorems about the metric classifier and the score update -/

/-- C1: with an expected value present, a metric whose lower-cased name is
delivery_time or lead_time is classified compliant iff `result ≤ expected`
(else non-compliant), and one whose lower-cased name is quality_score or
quality_rating is classified compliant iff `result ≥ expected` (else
non-compliant). -/
theorem classify_comparison_policies (metric : String) (result e : ℚ) (fb : String) :
    ((strLower metric = "delivery_time" ∨ strLower metric = "lead_time") →
      (classifyStatus metric result (some e) fb = "compliant" ↔ result ≤ e) ∧
      (classifyStatus metric result (some e) fb = "non-compliant" ↔ ¬ result ≤ e)) ∧
    ((strLower metric = "quality_score" ∨ strLower metric = "quality_rating") →
      (classifyStatus metric result (some e) fb = "compliant" ↔ result ≥ e) ∧
      (classifyStatus metric result (some e) fb = "non-compliant" ↔ ¬ result ≥ e)) := by
  constructor
  · intro h
    have hc : classifyStatus metric result (some e) fb =
        if result ≤ e then "compliant" else "non-compliant" := by
      simp only [classifyStatus]
      rw [if_pos h]
    rw [hc]
    by_cases hle : result ≤ e <;> simp [hle]
  · intro h
    have hne : ¬ (strLower metric = "delivery_time" ∨ strLower metric = "lead_time") := by
      rcases h with h | h <;> rw [h] <;> decide
    have hc : classifyStatus metric result (some e) fb =
        if result ≥ e then "compliant" else "non-compliant" := by
      simp only [classifyStatus]
      rw [if_neg hne, if_pos h]
    rw [hc]
    by_cases hge : result ≥ e <;> simp [hge]

/-- Witness for C1 at concrete inputs. -/
theorem classify_comparison_policies_witness :
    (classifyStatus "delivery_time" 5 (some 6) "x" = "compliant" ↔ (5 : ℚ) ≤ 6) ∧
    (classifyStatus "Quality_Score" 5 (some 6) "x" = "non-compliant" ↔ ¬ (5 : ℚ) ≥ 6) :=
  ⟨((classify_comparison_policies "delivery_time" 5 6 "x").1 (Or.inl (by decide))).1,
   ((classify_comparison_policies "Quality_Score" 5 6 "x").2 (Or.inl (by decide))).2⟩

/-- C6: with no expected value the classifier returns the caller-supplied
status verbatim; with an expected value but a metric outside the four
recognized names it also returns the caller-supplied status verbatim. -/
theorem classify_fallback_status (metric : String) (result e : ℚ) (fb : String) :
    classifyStatus metric result none fb = fb ∧
    (strLower metric ∉ (["delivery_time", "lead_time",
        "quality_score", "quality_rating"] : List String) →
      classifyStatus metric result (some e) fb = fb) := by
  refine ⟨rfl, fun h => ?_⟩
  simp only [List.mem_cons, List.mem_singleton, not_or] at h
  obtain ⟨h1, h2, h3, h4⟩ := h
  simp only [classifyStatus]
  rw [if_neg (by tauto), if_neg (by tauto)]

/-- Witness for C6 at a concrete unrecognized metric. -/
theorem classify_fallback_status_witness :
    classifyStatus "defect_rate" 3 none "ok" = "ok" ∧
    classifyStatus "defect_rate" 3 (some 1) "ok" = "ok" :=
  ⟨(classify_fallback_status "defect_rate" 3 1 "ok").1,
   (classify_fallback_status "defect_rate" 3 1 "ok").2 (by decide)⟩

/-- C8: the supplier's new score is the advisory suggestion (or the prior
score when the suggestion is absent) clamped into `[0, 100]`; it always
lies in `[0, 100]`, a suggestion of 150 yields 100 and a suggestion of -20
yields 0. -/
theorem score_clamped (ai : List (String × ℤ)) (current : ℤ) :
    newComplianceScore ai current =
      min 100 (max 0 ((ai.lookup "compliance_score_suggestion").getD current)) ∧
    0 ≤ newComplianceScore ai current ∧
    newComplianceScore ai current ≤ 100 ∧
    newComplianceScore [("compliance_score_suggestion", 150)] current = 100 ∧
    newComplianceScore [("compliance_score_suggestion", -20)] current = 0 := by
  simp only [newComplianceScore]
  refine ⟨by omega, by omega, by omega, rfl, rfl⟩

/-! ## Theorems about the weather detector and justification generator -/

/-- C5: the justification is the fixed no-adverse-weather sentence for
empty findings, the singular sentence for exactly one finding, and the
", "-joined, " and "-terminated multiple-conditions sentence for two or
more; a finding carrying a measurement contributes its literal
description, one without contributes its title-cased category name. -/
theorem justification_format (desc : String) :
    generateJustification [] desc =
      "No adverse weather conditions detected that would impact delivery." ∧
    (∀ f : Finding, generateJustification [f] desc =
      "Delivery delay justified due to adverse weather: " ++
        conditionDescription f ++ ". Weather conditions: " ++ desc ++ ".") ∧
    (∀ (f g : Finding) (fs : List Finding),
      generateJustification (f :: g :: fs) desc =
        "Delivery delay justified due to multiple adverse weather conditions: " ++
          (String.intercalate ", " (((f :: g :: fs).map conditionDescription).dropLast)
            ++ " and " ++ (((f :: g :: fs).map conditionDescription).getLastD "")) ++
          ". Weather conditions: " ++ desc ++ ".") ∧
    (∀ (t d : String) (mn : Option String) (q : ℚ),
      conditionDescription ⟨t, d, mn, some q⟩ = d) ∧
    (∀ (t d : String) (mn : Option String),
      conditionDescription ⟨t, d, mn, none⟩ = underscoreTitle t) := by
  refine ⟨rfl, fun f => ?_, fun f g fs => ?_, fun t d mn q => rfl, fun t d mn => rfl⟩
  · simp [generateJustification]
  · simp [generateJustification]

/-- C2 (counterexample): an input whose observation array is present but
empty does not yield the zero-finding result — the detector raises
(embedded as `none`) on it. -/
theorem analyze_empty_data_raises :
    analyze_adverse_weather { data := some [], mock := false } = none := rfl

/-- C2 (amended): an input with no observation array (a falsy input or a
dictionary without the `data` key) yields the zero-finding result with
`has_adverse_weather` false, severity none and justification
"No weather data available". -/
theorem analyze_no_data_key (b : Bool) :
    analyze_adverse_weather { data := none, mock := b } =
      some { has_adverse_weather := false, conditions := [], severity := "none",
             justification := "No weather data available" } := rfl

/-- The severity computation, restated by cases on the findings list. -/
lemma severityOf_eq (found : List Finding) (desc : String) :
    severityOf found desc =
      (if found = [] then "none"
       else if severityKeywords.any (fun k => strContains desc k) then "high"
       else if 1 < found.length then "medium" else "low") := by
  cases found with
  | nil => rfl
  | cons c cs =>
    unfold severityOf
    rw [if_pos (show 0 < (c :: cs).length by simp),
      if_neg (show ¬ c :: cs = [] by simp)]

/-- C3: whenever the detector returns a result, its severity is none for
no findings; else high when the lower-cased description contains a
severity keyword; else medium for more than one finding; else low — in
particular one finding with a keyword is high and two findings without
one are only medium. -/
theorem severity_classification (wd : WeatherData) (res : WeatherAnalysis)
    (h : analyze_adverse_weather wd = some res) :
    res.severity =
      (if res.conditions = [] then "none"
       else if severityKeywords.any (fun k =>
           strContains (res.weather_description.getD "") k) then "high"
       else if 1 < res.conditions.length then "medium" else "low") ∧
    (res.conditions.length = 1 →
      (severityKeywords.any fun k =>
        strContains (res.weather_description.getD "") k) →
      res.severity = "high") ∧
    (res.conditions.length = 2 →
      ¬ (severityKeywords.any fun k =>
        strContains (res.weather_description.getD "") k) →
      res.severity = "medium") := by
  have hmain : res.severity =
      (if res.conditions = [] then "none"
       else if severityKeywords.any (fun k =>
           strContains (res.weather_description.getD "") k) then "high"
       else if 1 < res.conditions.length then "medium" else "low") := by
    rcases hd : wd.data with _ | l <;>
      simp only [analyze_adverse_weather, hd] at h
    · obtain rfl : _ = res := Option.some.inj h
      rfl
    · cases l with
      | nil => exact absurd h (by simp)
      | cons wi rest =>
        rcases he : (wi.weather.getD [{ main := none, description := none }]).head?
            with _ | entry <;>
          simp only [analyzeObservation, he] at h
        · exact absurd h (by simp)
        · obtain rfl : _ = res := Option.some.inj h
          exact severityOf_eq _ _
  have hne1 : res.conditions.length = 1 → ¬ res.conditions = [] := by
    intro h1 hnil
    rw [hnil] at h1
    simp at h1
  have hne2 : res.conditions.length = 2 → ¬ res.conditions = [] := by
    intro h2 hnil
    rw [hnil] at h2
    simp at h2
  refine ⟨hmain, fun h1 hkw => ?_, fun h2 hkw => ?_⟩
  · rw [hmain, if_neg (hne1 h1), if_pos hkw]
  · rw [hmain, if_neg (hne2 h2), if_neg hkw, if_pos (by omega)]

/-! ## Theorems about the weather adjudication over records -/

/-- C4: the record-mutation step of the weather adjudication is
idempotent: a benign analysis mutates nothing and produces no write, an
adverse one leaves every mutated record `excused-weather`, and a second
run on the resulting state returns it unchanged with no updated records. -/
theorem weather_adjudication_idempotent (sid : ℕ) (rid? : Option ℕ) (d : ℕ)
    (wa : WeatherAnalysis) (db db' upd : List Record)
    (h : applyWeatherImpact sid rid? d wa db = Except.ok (db', upd)) :
    (wa.has_adverse_weather = false → db' = db ∧ upd = []) ∧
    (∀ r ∈ upd, r.status = "excused-weather") ∧
    applyWeatherImpact sid rid? d wa db' = Except.ok (db', []) := by
  cases rid? with
  | none =>
    simp only [applyWeatherImpact] at h ⊢
    by_cases hw : wa.has_adverse_weather = true
    · rw [if_pos hw] at h
      obtain ⟨h1, h2⟩ := Prod.mk.injEq .. ▸ Except.ok.inj h
      refine ⟨fun hb => absurd hw (by simp [hb]), fun r hr => ?_, ?_⟩
      · rw [← h2] at hr
        obtain ⟨r₀, -, rfl⟩ := List.mem_map.mp hr
        rfl
      · rw [if_pos hw, ← h1, excuseForDate_map_idem, excuseForDate_filter_nil]
        rfl
    · rw [if_neg hw] at h
      obtain ⟨h1, h2⟩ := Prod.mk.injEq .. ▸ Except.ok.inj h
      exact ⟨fun _ => ⟨h1.symm, h2.symm⟩, fun r hr => absurd hr (by rw [← h2]; simp),
        by rw [if_neg hw]⟩
  | some rid =>
    simp only [applyWeatherImpact] at h ⊢
    by_cases hex : (db.any fun r => r.id = rid ∧ r.supplier_id = sid) = true
    · rw [if_pos hex] at h
      by_cases hw : wa.has_adverse_weather = true
      · rw [if_pos hw] at h
        obtain ⟨h1, h2⟩ := Prod.mk.injEq .. ▸ Except.ok.inj h
        have hex' : (db'.any fun r => r.id = rid ∧ r.supplier_id = sid) = true := by
          rw [← h1, updateById_any, hex]
        refine ⟨fun hb => absurd hw (by simp [hb]), fun r hr => ?_, ?_⟩
        · exact updateById_snd_status rid sid wa db r (h2 ▸ hr)
        · rw [if_pos hex', if_pos hw, ← h1, updateById_idem]
      · rw [if_neg hw] at h
        obtain ⟨h1, h2⟩ := Prod.mk.injEq .. ▸ Except.ok.inj h
        have hex' : (db'.any fun r => r.id = rid ∧ r.supplier_id = sid) = true := by
          rw [← h1, hex]
        exact ⟨fun _ => ⟨h1.symm, h2.symm⟩,
          fun r hr => absurd hr (by rw [← h2]; simp),
          by rw [if_pos hex', if_neg hw]⟩
    · rw [if_neg hex] at h
      simp at h

/-- C7: with an explicit record id, adjudication fails with a not-found
error when no record with that id belongs to the supplier; succeeds
without mutating anything when the first matching record is not
`non-compliant`; and in every success only records of that supplier that
were `non-compliant` get reclassified. -/
theorem weather_adjudication_explicit_record (sid rid d : ℕ)
    (wa : WeatherAnalysis) (db : List Record) :
    ((db.any fun r => r.id = rid ∧ r.supplier_id = sid) = false →
      applyWeatherImpact sid (some rid) d wa db =
        Except.error ("Compliance record with ID " ++ toString rid ++
          " not found for supplier " ++ toString sid)) ∧
    (∀ r₀, (db.find? fun r => r.id = rid ∧ r.supplier_id = sid) = some r₀ →
      r₀.status ≠ "non-compliant" →
      applyWeatherImpact sid (some rid) d wa db = Except.ok (db, [])) ∧
    (∀ db' upd, applyWeatherImpact sid (some rid) d wa db = Except.ok (db', upd) →
      List.Forall₂ (fun r r' => r' = r ∨ (r.supplier_id = sid ∧
        r.status = "non-compliant" ∧ r' = excuse wa r)) db db') := by
  refine ⟨fun hex => ?_, fun r₀ hf hs => ?_, fun db' upd h =>
    applyWeatherImpact_forall₂ sid (some rid) d wa db db' upd h⟩
  · simp only [applyWeatherImpact]
    rw [if_neg (by simp only [hex]; decide)]
  · have hp := @List.find?_some Record
      (fun r => decide (r.id = rid ∧ r.supplier_id = sid)) r₀ db hf
    have hex : (db.any fun r => r.id = rid ∧ r.supplier_id = sid) = true :=
      List.any_eq_true.mpr ⟨r₀, List.mem_of_find?_eq_some hf, hp⟩
    simp only [applyWeatherImpact]
    rw [if_pos hex]
    by_cases hw : wa.has_adverse_weather = true
    · rw [if_pos hw, updateById_noop rid sid wa db r₀ hf hs]
    · rw [if_neg hw]

/-- C9 (counterexample): `create_compliance_record` stores the
caller-supplied status verbatim, so a caller can create a record whose
verdict is `excused-weather` at creation time. -/
theorem excused_weather_at_creation_cex :
    (createComplianceRecord 1 1
      ⟨"custom_metric", 0, 1, none, "excused-weather"⟩).status =
      "excused-weather" := rfl

/-- C9 (amended): the numeric classifier only ever yields `compliant`,
`non-compliant` or the caller-supplied status, so an ingested record is
`excused-weather` only if the caller supplied that status; the single
record creation stores the caller's status verbatim; and the weather
adjudication changes a stored record only by reclassifying a
`non-compliant` record of the supplier to `excused-weather`. -/
theorem excused_weather_provenance (metric fb : String) (x e : ℚ)
    (sid nid : ℕ) (rc : ComplianceEntry) (rid? : Option ℕ) (d : ℕ)
    (wa : WeatherAnalysis) (db db' upd : List Record) :
    (classifyStatus metric x (some e) fb = "compliant" ∨
      classifyStatus metric x (some e) fb = "non-compliant" ∨
      classifyStatus metric x (some e) fb = fb) ∧
    ((ingestRecord sid nid rc).status = "excused-weather" →
      rc.status = "excused-weather") ∧
    (createComplianceRecord sid nid rc).status = rc.status ∧
    (applyWeatherImpact sid rid? d wa db = Except.ok (db', upd) →
      List.Forall₂ (fun r r' => r' = r ∨
        (r.status = "non-compliant" ∧ r'.status = "excused-weather")) db db') := by
  refine ⟨?_, fun h => ?_, rfl, fun h => ?_⟩
  · simp only [classifyStatus]
    split_ifs <;> tauto
  · have hc : classifyStatus rc.metric rc.result rc.expected_value rc.status =
        "excused-weather" := h
    cases hx : rc.expected_value with
    | none => simpa [classifyStatus, hx] using hc
    | some e' =>
      rw [hx] at hc
      simp only [classifyStatus] at hc
      split_ifs at hc
      all_goals first
        | exact hc
        | exact absurd hc (by decide)
  · exact (applyWeatherImpact_forall₂ sid rid? d wa db db' upd h).imp
      fun r r' hr => hr.imp id fun ⟨_, h2, h3⟩ => ⟨h2, by rw [h3]; rfl⟩

/-! ## Theorems about the precipitation thresholds -/

/-- A finding produced by the rain-threshold rule: category `heavy_rain`
carrying a measurement. -/
def isRainThreshold (f : Finding) : Bool :=
  f.type = "heavy_rain" ∧ f.measurement.isSome

/-- A finding produced by the snow-threshold rule: category `snow`
carrying a measurement. -/
def isSnowThreshold (f : Finding) : Bool :=
  f.type = "snow" ∧ f.measurement.isSome

lemma keywordFindings_measurement (d m : String) :
    ∀ f ∈ keywordFindings d m, f.measurement = none := by
  intro f hf
  simp only [keywordFindings, List.mem_flatMap, List.mem_map] at hf
  obtain ⟨ck, -, k, -, rfl⟩ := hf
  rfl

lemma keywordFindings_filter_rain (d m : String) :
    (keywordFindings d m).filter isRainThreshold = [] := by
  refine List.filter_eq_nil_iff.mpr fun f hf => ?_
  simp [isRainThreshold, keywordFindings_measurement d m f hf]

lemma keywordFindings_filter_snow (d m : String) :
    (keywordFindings d m).filter isSnowThreshold = [] := by
  refine List.filter_eq_nil_iff.mpr fun f hf => ?_
  simp [isSnowThreshold, keywordFindings_measurement d m f hf]

lemma rainFindings_filter_self (r : Option (List (String × ℚ))) :
    (rainFindings r).filter isRainThreshold = rainFindings r := by
  cases r with
  | none => rfl
  | some m =>
    simp only [rainFindings]
    split_ifs with h
    · simp [List.filter, isRainThreshold]
    · rfl

lemma snowFindings_filter_self (s : Option (List (String × ℚ))) :
    (snowFindings s).filter isSnowThreshold = snowFindings s := by
  cases s with
  | none => rfl
  | some m =>
    simp only [snowFindings]
    split_ifs with h
    · simp [List.filter, isSnowThreshold]
    · rfl

lemma rainFindings_filter_snow (r : Option (List (String × ℚ))) :
    (rainFindings r).filter isSnowThreshold = [] := by
  cases r with
  | none => rfl
  | some m =>
    simp only [rainFindings]
    split_ifs with h
    · simp [List.filter, isSnowThreshold]
    · rfl

lemma snowFindings_filter_rain (s : Option (List (String × ℚ))) :
    (snowFindings s).filter isRainThreshold = [] := by
  cases s with
  | none => rfl
  | some m =>
    simp only [snowFindings]
    split_ifs with h
    · simp [List.filter, isRainThreshold]
    · rfl

lemma windFindings_filter_rain (ws : ℚ) :
    (windFindings ws).filter isRainThreshold = [] := by
  simp only [windFindings]
  split_ifs with h
  · simp [List.filter, isRainThreshold]
  · rfl

lemma windFindings_filter_snow (ws : ℚ) :
    (windFindings ws).filter isSnowThreshold = [] := by
  simp only [windFindings]
  split_ifs with h
  · simp [List.filter, isSnowThreshold]
  · rfl

/-- C10: in every returned analysis of an observation, the
measurement-carrying `heavy_rain` findings are exactly those produced by
the rain-threshold rule and likewise for `snow`; the tested amount is the
`1h` value when nonzero and the `3h` value otherwise; an absent or empty
rain/snow map produces no threshold finding, while a truthy map whose
chosen amount passes the threshold (10 for rain, 0 for snow) puts a
finding carrying that measurement into the conditions. -/
theorem precip_threshold_findings (wd : WeatherData) (wi : WeatherInfo)
    (rest : List WeatherInfo) (res : WeatherAnalysis)
    (hdata : wd.data = some (wi :: rest))
    (h : analyze_adverse_weather wd = some res) :
    res.conditions.filter isRainThreshold = rainFindings wi.rain ∧
    res.conditions.filter isSnowThreshold = snowFindings wi.snow ∧
    rainFindings none = [] ∧ rainFindings (some []) = [] ∧
    snowFindings none = [] ∧ snowFindings (some []) = [] ∧
    (∀ a b : ℚ, precipAmount [("1h", a), ("3h", b)] = if a ≠ 0 then a else b) ∧
    (∀ m, wi.rain = some m → m ≠ [] → precipAmount m > 10 →
      ({ type := "heavy_rain",
         description := "Heavy rainfall: " ++ ratStr (precipAmount m) ++ "mm",
         main := none,
         measurement := some (precipAmount m) } : Finding) ∈ res.conditions) ∧
    (∀ m, wi.snow = some m → m ≠ [] → precipAmount m > 0 →
      ({ type := "snow",
         description := "Snowfall: " ++ ratStr (precipAmount m) ++ "mm",
         main := none,
         measurement := some (precipAmount m) } : Finding) ∈ res.conditions) := by
  simp only [analyze_adverse_weather, hdata] at h
  rcases he : (wi.weather.getD [{ main := none, description := none }]).head?
      with _ | entry <;>
    simp only [analyzeObservation, he] at h
  · exact absurd h (by simp)
  obtain rfl : _ = res := Option.some.inj h
  have hrain : (keywordFindings (strLower (entry.description.getD ""))
        (strLower (entry.main.getD "")) ++
      rainFindings wi.rain ++ snowFindings wi.snow ++
      windFindings (wi.wind_speed.getD 0)).filter isRainThreshold =
        rainFindings wi.rain := by
    rw [List.filter_append, List.filter_append, List.filter_append,
      keywordFindings_filter_rain, rainFindings_filter_self,
      snowFindings_filter_rain, windFindings_filter_rain]
    simp
  have hsnow : (keywordFindings (strLower (entry.description.getD ""))
        (strLower (entry.main.getD "")) ++
      rainFindings wi.rain ++ snowFindings wi.snow ++
      windFindings (wi.wind_speed.getD 0)).filter isSnowThreshold =
        snowFindings wi.snow := by
    rw [List.filter_append, List.filter_append, List.filter_append,
      keywordFindings_filter_snow, rainFindings_filter_snow,
      snowFindings_filter_self, windFindings_filter_snow]
    simp
  refine ⟨hrain, hsnow, rfl, rfl, rfl, rfl, fun a b => ?_, fun m hm hne hgt => ?_,
    fun m hm hne hgt => ?_⟩
  · have h31 : (("3h" : String) == "1h") = false := rfl
    have h11 : (("1h" : String) == "1h") = true := rfl
    have h33 : (("3h" : String) == "3h") = true := rfl
    by_cases hz : a = 0 <;>
      simp [precipAmount, getD0, List.lookup, hz, h31, h11, h33]
  · have hx : (⟨"heavy_rain",
        "Heavy rainfall: " ++ ratStr (precipAmount m) ++ "mm",
        none, some (precipAmount m)⟩ : Finding) ∈
        (keywordFindings (strLower (entry.description.getD ""))
            (strLower (entry.main.getD "")) ++
          rainFindings wi.rain ++ snowFindings wi.snow ++
          windFindings (wi.wind_speed.getD 0)).filter isRainThreshold := by
      rw [hrain, hm]
      simp only [rainFindings]
      rw [if_pos ⟨hne, hgt⟩]
      exact List.mem_singleton.mpr rfl
    exact List.mem_of_mem_filter hx
  · have hx : (⟨"snow",
        "Snowfall: " ++ ratStr (precipAmount m) ++ "mm",
        none, some (precipAmount m)⟩ : Finding) ∈
        (keywordFindings (strLower (entry.description.getD ""))
            (strLower (entry.main.getD "")) ++
          rainFindings wi.rain ++ snowFindings wi.snow ++
          windFindings (wi.wind_speed.getD 0)).filter isSnowThreshold := by
      rw [hsnow, hm]
      simp only [snowFindings]
      rw [if_pos ⟨hne, hgt⟩]
      exact List.mem_singleton.mpr rfl
    exact List.mem_of_mem_filter hx

/-! ## Concrete witness inputs -/

/-- An observation whose description is "heavy snow": two snow keyword
findings, severity keyword "heavy" present. -/
def wdHigh : WeatherData :=
  ⟨some [⟨some [⟨some "Snow", some "heavy snow"⟩], none, none, none, none⟩], false⟩

/-- The analysis computed for `wdHigh`. -/
def resHigh : WeatherAnalysis :=
  (analyze_adverse_weather wdHigh).getD ⟨false, [], "", "", none, none, none, none⟩

/-- An adverse analysis payload used to drive the adjudication step. -/
def waAdv : WeatherAnalysis :=
  { has_adverse_weather := true, conditions := [], severity := "low",
    justification := "justified" }

/-- A non-compliant record of supplier 1 dated 5. -/
def rNC : Record :=
  { id := 7, supplier_id := 1, metric := "delivery_time", date_recorded := 5,
    result := 6, expected_value := some 5, status := "non-compliant" }

/-- A compliant record of supplier 1 dated 5. -/
def rCompl : Record :=
  { id := 7, supplier_id := 1, metric := "quality_score", date_recorded := 5,
    result := 9, expected_value := some 8, status := "compliant" }

/-- A creation payload carrying status `excused-weather`. -/
def rcExcused : ComplianceEntry :=
  ⟨"custom_metric", 0, 1, none, "excused-weather"⟩

/-- An observation with a benign description and rain `1h = 0`, `3h = 12`. -/
def wiRain : WeatherInfo :=
  ⟨some [⟨some "Rain", some "light rain"⟩],
   some [("1h", 0), ("3h", 12)], none, none, none⟩

/-- The weather input holding `wiRain` as its single observation. -/
def wdRain : WeatherData := ⟨some [wiRain], false⟩

/-- The analysis computed for `wdRain`. -/
def resRain : WeatherAnalysis :=
  (analyze_adverse_weather wdRain).getD ⟨false, [], "", "", none, none, none, none⟩

/-- Witness for C3 on `wdHigh`: single-keyword severity is `high`. -/
theorem severity_classification_witness : resHigh.severity = "high" := by
  have h := severity_classification wdHigh resHigh (by decide)
  rw [h.1]
  decide

/-- Witness for C4: rerunning the adjudication on the state produced by an
adverse run returns it unchanged with no updated records. -/
theorem weather_adjudication_idempotent_witness :
    applyWeatherImpact 1 none 5 waAdv [excuse waAdv rNC] =
      Except.ok ([excuse waAdv rNC], []) := by
  have h := weather_adjudication_idempotent 1 none 5 waAdv [rNC]
    [excuse waAdv rNC] [excuse waAdv rNC] (by rfl)
  exact h.2.2

/-- Witness for C7: a missing record id errors, a non-`non-compliant`
record is a silent no-op, and the success relation holds on a mutated
state. -/
theorem weather_adjudication_explicit_record_witness :
    applyWeatherImpact 1 (some 9) 5 waAdv [] =
      Except.error ("Compliance record with ID " ++ toString (9 : ℕ) ++
        " not found for supplier " ++ toString (1 : ℕ)) ∧
    applyWeatherImpact 1 (some 7) 5 waAdv [rCompl] = Except.ok ([rCompl], []) ∧
    List.Forall₂ (fun r r' => r' = r ∨ (r.supplier_id = 1 ∧
      r.status = "non-compliant" ∧ r' = excuse waAdv r))
      [rNC] [excuse waAdv rNC] :=
  ⟨(weather_adjudication_explicit_record 1 9 5 waAdv []).1 rfl,
   (weather_adjudication_explicit_record 1 7 5 waAdv [rCompl]).2.1 rCompl
     (by rfl) (by decide),
   (weather_adjudication_explicit_record 1 7 5 waAdv [rNC]).2.2
     [excuse waAdv rNC] [excuse waAdv rNC] (by rfl)⟩

/-- Witness for C9 (amended): an ingested record is `excused-weather` only
because the caller supplied it, and an adverse run only turned the
`non-compliant` record into `excused-weather`. -/
theorem excused_weather_provenance_witness :
    rcExcused.status = "excused-weather" ∧
    List.Forall₂ (fun r r' => r' = r ∨
      (r.status = "non-compliant" ∧ r'.status = "excused-weather"))
      [rNC] [excuse waAdv rNC] :=
  ⟨(excused_weather_provenance "m" "fb" 0 0 1 1 rcExcused none 5 waAdv
      [] [] []).2.1 rfl,
   (excused_weather_provenance "m" "fb" 0 0 1 1 rcExcused (some 7) 5 waAdv
      [rNC] [excuse waAdv rNC] [excuse waAdv rNC]).2.2.2 (by rfl)⟩

/-- Witness for C10: rain `1h = 0`, `3h = 12` yields a `heavy_rain`
finding carrying measurement 12, and no snow-threshold finding exists. -/
theorem precip_threshold_findings_witness :
    (⟨"heavy_rain", "Heavy rainfall: " ++ ratStr 12 ++ "mm", none,
      some 12⟩ : Finding) ∈ resRain.conditions ∧
    resRain.conditions.filter isSnowThreshold = [] := by
  have h := precip_threshold_findings wdRain wiRain [] resRain rfl (by decide)
  constructor
  · have hm := h.2.2.2.2.2.2.2.1 [("1h", 0), ("3h", 12)] rfl (by decide) (by decide)
    have hp : precipAmount [("1h", (0 : ℚ)), ("3h", 12)] = 12 := by decide
    rw [hp] at hm
    exact hm
  · rw [h.2.1]
    rfl

end SupplierCompliance
